import Mathlib

/-!
Shallow embedding of akvorado's dict-source backends
(`common/schema/dictsources.go`) and routing facade
(`inlet/routing/root.go`), with theorems checking the specification's
claims about them.

Go conventions are kept explicit: a fallible call returns a pair
`(value, error)` where each side may independently be nil (`Option`),
and a call that panics is a distinguished outcome. External effects
(`os.Open`, `http.Get`, the S3 gateway's `GetObject`) are oracles
passed in as functions, so each embedded operation is the pure
data-flow of the corresponding Go function over its oracle.
-/

namespace Akvorado

/-- Byte stream contents delivered by an `io.ReadCloser`. -/
abbrev ByteStream := String

/-- A Go `error` value, abstracted by its kind and message. -/
inductive GoError where
  | notFound
  | permissionDenied
  | netError (msg : String)
  | errMsg (msg : String)
deriving DecidableEq

/-- The outcome of a Go call returning `(io.ReadCloser, error)`:
either a normal return of the pair (each side independently nilable),
or a runtime panic. -/
inductive FetchOutcome where
  | returns (stream : Option ByteStream) (err : Option GoError)
  | panics (msg : String)
deriving DecidableEq

/-- An HTTP response as seen through `net/http`: a status code and a
body. Per the `net/http` documentation the body of a non-nil response
is always non-nil, so it is a plain field. -/
structure HttpResponse where
  statusCode : Nat
  body : ByteStream
deriving DecidableEq

/-- The `*s3.Component` gateway consumed by the S3 dict source: its
only capability used here is `GetObject(config, key)`, returning a Go
`(io.ReadCloser, error)` pair. -/
structure S3Component where
  GetObject : String → String → Option ByteStream × Option GoError

/-- Ambient effects used by the stateless backends: `os.Open` for the
filesystem source and `http.Get` for the HTTP source. `osOpen` yields
the opened file's contents (or an error); `httpGet` yields the
response (or a network error). -/
structure World where
  osOpen : String → Option ByteStream × Option GoError
  httpGet : String → Option HttpResponse × Option GoError

/-- `FileDictSourceConfiguration`: empty, as in the source. -/
structure FileDictSourceConfiguration where
deriving DecidableEq

/-- `HttpDictSourceConfiguration`: holds a base URL. -/
structure HttpDictSourceConfiguration where
  BaseURL : String
deriving DecidableEq

/-- `S3DictSourceConfiguration`: holds the name of an S3 config. -/
structure S3DictSourceConfiguration where
  S3Config : String
deriving DecidableEq

/-- `S3MockDictSourceConfiguration`: empty, as in the source. -/
structure S3MockDictSourceConfiguration where
deriving DecidableEq

/-- The `DictSource` interface: its concrete members in the source are
`FileDictSource` and `HttpDictSource` (both field-less) and
`S3DictSource` (carrying its configuration and the gateway handle). -/
inductive DictSourceV where
  | file
  | http
  | s3 (config : S3DictSourceConfiguration) (c : S3Component)

/-- The `DictSourceConfiguration` interface: the four concrete
configuration types registered in `dictSourceConfigurationMap`. -/
inductive DictSourceConfigurationV where
  | file (c : FileDictSourceConfiguration)
  | http (c : HttpDictSourceConfiguration)
  | s3 (c : S3DictSourceConfiguration)
  | s3mock (c : S3MockDictSourceConfiguration)
deriving DecidableEq

/-- Outcome of a `New(c *s3.Component) (DictSource, error)` call:
normal return of the Go pair, or a panic. -/
inductive NewOutcome where
  | returns (src : Option DictSourceV) (err : Option GoError)
  | panics (msg : String)

/-- `FileDictSourceConfiguration.New`: `return FileDictSource{}, nil`. -/
def FileDictSourceConfiguration.New (_ : FileDictSourceConfiguration)
    (_ : S3Component) : NewOutcome :=
  .returns (some .file) none

/-- `HttpDictSourceConfiguration.New`: `return HttpDictSource{}, nil`;
the receiver (and its `BaseURL`) is discarded. -/
def HttpDictSourceConfiguration.New (_ : HttpDictSourceConfiguration)
    (_ : S3Component) : NewOutcome :=
  .returns (some .http) none

/-- `S3DictSourceConfiguration.New`:
`return S3DictSource{config: sc, c: c}, nil`. -/
def S3DictSourceConfiguration.New (sc : S3DictSourceConfiguration)
    (c : S3Component) : NewOutcome :=
  .returns (some (.s3 sc c)) none

/-- `S3MockDictSourceConfiguration.New`: `panic("not implemented")`. -/
def S3MockDictSourceConfiguration.New (_ : S3MockDictSourceConfiguration)
    (_ : S3Component) : NewOutcome :=
  .panics "not implemented"

/-- Dynamic dispatch of `New` through the `DictSourceConfiguration`
interface. -/
def DictSourceConfigurationV.New : DictSourceConfigurationV → S3Component → NewOutcome
  | .file c, comp => c.New comp
  | .http c, comp => c.New comp
  | .s3 c, comp => c.New comp
  | .s3mock c, comp => c.New comp

/-- `DefaultFileDictSourceConfiguration`. -/
def DefaultFileDictSourceConfiguration : DictSourceConfigurationV :=
  .file {}

/-- `DefaultHttpDictSourceConfiguration`: Go zero value for `BaseURL`. -/
def DefaultHttpDictSourceConfiguration : DictSourceConfigurationV :=
  .http { BaseURL := "" }

/-- `DefaultS3DictSourceConfiguration`: Go zero value for `S3Config`. -/
def DefaultS3DictSourceConfiguration : DictSourceConfigurationV :=
  .s3 { S3Config := "" }

/-- `DefaultS3MockDictSourceConfiguration`. -/
def DefaultS3MockDictSourceConfiguration : DictSourceConfigurationV :=
  .s3mock {}

/-- `dictSourceConfigurationMap`: the registry mapping a discriminator
string to the default-configuration constructor (applied here, since
the constructors are pure). Any other key is absent from the map. -/
def dictSourceConfigurationMap (k : String) : Option DictSourceConfigurationV :=
  if k = "file" then some DefaultFileDictSourceConfiguration
  else if k = "http" then some DefaultHttpDictSourceConfiguration
  else if k = "s3" then some DefaultS3DictSourceConfiguration
  else if k = "s3mock" then some DefaultS3MockDictSourceConfiguration
  else none

/-- `DictSource.Get` dispatched over the concrete sources:
  file: `return os.Open(key)` (the pair verbatim);
  http: `resp, err := http.Get(key); if err != nil return nil, err;
        return resp.Body, nil` (dereferencing a nil response panics);
  s3:   `read, err := c.GetObject(s.config.S3Config, key);
        if err != nil return nil, err; return read, nil`. -/
def DictSourceV.Get (s : DictSourceV) (w : World) (key : String) : FetchOutcome :=
  match s with
  | .file =>
    .returns (w.osOpen key).1 (w.osOpen key).2
  | .http =>
    match w.httpGet key with
    | (_, some err) => .returns none (some err)
    | (some resp, none) => .returns (some resp.body) none
    | (none, none) => .panics "invalid memory address or nil pointer dereference"
  | .s3 config c =>
    match c.GetObject config.S3Config key with
    | (_, some err) => .returns none (some err)
    | (read, none) => .returns read none

/-- A raw structured (YAML-like) configuration value: the
discriminator plus the kind-specific fields as string pairs. -/
structure RawDictValue where
  kind : String
  fields : List (String × String)
deriving DecidableEq

/-- Overlay helper: the decoded value of one field, taken from the raw
fields when present, from the resolved default otherwise. -/
def overlayField (fields : List (String × String)) (name dflt : String) : String :=
  match fields.lookup name with
  | some v => v
  | none => dflt

/-- Modelled from the spec: `helpers.ParametrizedConfigurationMarshalYAML`
(package `akvorado/common/helpers`, not under src/) emits the
discriminator field plus the configuration's own fields. -/
def encodeDictConfiguration : DictSourceConfigurationV → RawDictValue
  | .file _ => { kind := "file", fields := [] }
  | .http c => { kind := "http", fields := [("baseurl", c.BaseURL)] }
  | .s3 c => { kind := "s3", fields := [("s3config", c.S3Config)] }
  | .s3mock _ => { kind := "s3mock", fields := [] }

/-- Modelled from the spec: `helpers.ParametrizedConfigurationUnmarshallerHook`
(package `akvorado/common/helpers`, not under src/) reads the
discriminator field, resolves the default configuration for that kind
through the registry (failing closed when the kind is unknown), and
overlays the remaining fields onto the default. -/
def decodeDictConfiguration (raw : RawDictValue) : Option DictSourceConfigurationV :=
  match dictSourceConfigurationMap raw.kind with
  | none => none
  | some dflt =>
    match dflt with
    | .file c => some (.file c)
    | .http c => some (.http { BaseURL := overlayField raw.fields "baseurl" c.BaseURL })
    | .s3 c => some (.s3 { S3Config := overlayField raw.fields "s3config" c.S3Config })
    | .s3mock c => some (.s3mock c)

/-- Decidable check that a `(stream, error)` outcome is exclusive: a
normal return where the stream is nil exactly when the error is
non-nil, and no panic. -/
def exclusiveResult : FetchOutcome → Bool
  | .returns s e => s.isNone == e.isSome
  | .panics _ => false

/-- An address (`netip.Addr`), abstracted by its textual form. -/
abbrev IPAddr := String

/-- A `context.Context`, abstracted by the observable facts relevant
here: whether it was cancelled and whether its deadline has passed. -/
structure GoContext where
  cancelled : Bool
  deadlineExpired : Bool
deriving DecidableEq

/-- Modelled from the spec: `provider.LookupResult` (package
`inlet/routing/provider`, not under src/) carries the resolved AS
number, the AS path and the communities for the queried pair. -/
structure LookupResult where
  asn : Nat
  asPath : List Nat
  communities : List Nat
deriving DecidableEq

/-- A routing provider: the mandatory `Lookup` capability, plus the
optional `starter` and `stopper` capabilities probed by Go type
assertion in the facade. `start = none` means the concrete provider
does not implement `starter`; `start = some r` means it does and
calling its `Start()` yields the error value `r` (`none` = nil). -/
structure Provider where
  lookup : GoContext → IPAddr → IPAddr → LookupResult
  start : Option (Option GoError)
  stop : Option (Option GoError)

/-- The routing `Component` facade: owns exactly one provider (the
reporter field only logs and carries no data flow). -/
structure Component where
  provider : Provider

/-- `Component.Start`: probe the `starter` capability; when present,
call it and return its error if non-nil; in all other paths return
nil. -/
def Component.Start (c : Component) : Option GoError :=
  match c.provider.start with
  | some res =>
    match res with
    | some err => some err
    | none => none
  | none => none

/-- `Component.Stop`: probe the `stopper` capability; when present,
call it and return its error if non-nil; in all other paths return
nil. -/
def Component.Stop (c : Component) : Option GoError :=
  match c.provider.stop with
  | some res =>
    match res with
    | some err => some err
    | none => none
  | none => none

/-- `Component.Lookup`: `return c.provider.Lookup(ctx, ip, nh)`. The
return type is `LookupResult` alone: the signature has no error. -/
def Component.Lookup (c : Component) (ctx : GoContext) (ip nh : IPAddr) : LookupResult :=
  c.provider.lookup ctx ip nh

/-- Modelled from the spec: the facade's lifecycle state machine
(`Constructed → Running → Stopped`); after `Start`, the facade is
`Running` exactly when `Start` returned nil. -/
inductive ComponentPhase where
  | constructed
  | running
  | stopped
deriving DecidableEq

/-- Modelled from the spec: the phase reached by a `Constructed`
facade after its `Start` call returns the given error value. -/
def phaseAfterStart : Option GoError → ComponentPhase
  | some _ => .constructed
  | none => .running

/-- The empty lookup result: no ASN, empty path, no communities. -/
def emptyLookupResult : LookupResult :=
  { asn := 0, asPath := [], communities := [] }

/-- A provider exposing neither `starter` nor `stopper`. -/
def providerPlain : Provider :=
  { lookup := fun _ _ _ => emptyLookupResult, start := none, stop := none }

/-- A provider whose `Start` and `Stop` capabilities both fail. -/
def providerFailing : Provider :=
  { lookup := fun _ _ _ => emptyLookupResult
    start := some (some (.errMsg "start failed"))
    stop := some (some (.errMsg "stop failed")) }

/-- A gateway whose `GetObject` always fails with a not-found error. -/
def s3GatewayMissing : S3Component :=
  { GetObject := fun _ _ => (none, some .notFound) }

/-- A gateway serving one fixed object for every request. -/
def s3GatewayConst : S3Component :=
  { GetObject := fun _ _ => (some "object-bytes", none) }

/-- A world where every file open and every HTTP request fails. -/
def worldAllFail : World :=
  { osOpen := fun _ => (none, some .notFound)
    httpGet := fun _ => (none, some (.netError "connection refused")) }

/-- A world with one readable file and an HTTP endpoint answering 404
with an HTML body for every URL. -/
def worldServing : World :=
  { osOpen := fun k => if k = "/etc/dict.csv" then (some "a,b,c", none) else (none, some .notFound)
    httpGet := fun _ => (some { statusCode := 404, body := "<html>not found</html>" }, none) }

/-- C1: for every context (cancelled or not) and every address pair,
`Component.Lookup` returns the selected provider's result unchanged;
its return type is `LookupResult` alone, so no error is ever
returned and the facade does not interpret the result. -/
theorem lookup_is_pure_passthrough (c : Component) (ctx : GoContext)
    (ip nh : IPAddr) :
    c.Lookup ctx ip nh = c.provider.lookup ctx ip nh := rfl

/-- C2: every registered discriminator resolves in the registry; the
file, http and s3 configurations construct a usable source with a nil
error; the reserved s3mock configuration fails fast with a panic
instead of returning a usable instance; and no unregistered
discriminator resolves (the registry fails closed). -/
theorem dict_source_construction_contract :
    ((dictSourceConfigurationMap "file").isSome
      ∧ (dictSourceConfigurationMap "http").isSome
      ∧ (dictSourceConfigurationMap "s3").isSome
      ∧ (dictSourceConfigurationMap "s3mock").isSome)
    ∧ (∀ comp : S3Component,
        DefaultFileDictSourceConfiguration.New comp
            = NewOutcome.returns (some .file) none
        ∧ DefaultHttpDictSourceConfiguration.New comp
            = NewOutcome.returns (some .http) none
        ∧ DefaultS3DictSourceConfiguration.New comp
            = NewOutcome.returns (some (.s3 { S3Config := "" } comp)) none)
    ∧ (∀ comp : S3Component,
        DefaultS3MockDictSourceConfiguration.New comp = .panics "not implemented")
    ∧ (∀ k, (dictSourceConfigurationMap k).isSome →
        k = "file" ∨ k = "http" ∨ k = "s3" ∨ k = "s3mock") := by
  refine ⟨⟨rfl, rfl, rfl, rfl⟩, fun comp => ⟨rfl, rfl, rfl⟩, fun comp => rfl, ?_⟩
  intro k h
  unfold dictSourceConfigurationMap at h
  split_ifs at h with h1 h2 h3 h4
  · exact Or.inl h1
  · exact Or.inr (Or.inl h2)
  · exact Or.inr (Or.inr (Or.inl h3))
  · exact Or.inr (Or.inr (Or.inr h4))
  · simp at h

theorem dict_source_construction_contract_witness :
    ("s3mock" = "file" ∨ "s3mock" = "http" ∨ "s3mock" = "s3" ∨ "s3mock" = "s3mock")
    ∧ DefaultS3MockDictSourceConfiguration.New s3GatewayMissing
        = .panics "not implemented" :=
  ⟨dict_source_construction_contract.2.2.2 "s3mock" (by decide),
   dict_source_construction_contract.2.2.1 s3GatewayMissing⟩

/-- C3: a provider without the `starter` capability makes
`Component.Start` a no-op returning nil; a provider whose `Start`
capability fails makes `Component.Start` return exactly that error,
and the facade does not reach the `Running` phase. -/
theorem routing_start_capability (c : Component) :
    (c.provider.start = none → c.Start = none)
    ∧ (∀ err, c.provider.start = some (some err) →
        c.Start = some err
        ∧ phaseAfterStart c.Start ≠ ComponentPhase.running) := by
  constructor
  · intro h
    simp [Component.Start, h]
  · intro err h
    have hs : c.Start = some err := by simp [Component.Start, h]
    refine ⟨hs, ?_⟩
    rw [hs]
    simp [phaseAfterStart]

theorem routing_start_capability_witness :
    ((Component.mk providerPlain).Start = none)
    ∧ ((Component.mk providerFailing).Start = some (.errMsg "start failed")
        ∧ phaseAfterStart (Component.mk providerFailing).Start
            ≠ ComponentPhase.running) :=
  ⟨(routing_start_capability (Component.mk providerPlain)).1 rfl,
   (routing_start_capability (Component.mk providerFailing)).2
     (.errMsg "start failed") rfl⟩

/-- C4: a provider without the `stopper` capability makes
`Component.Stop` a no-op returning nil; a provider with a `stopper`
capability makes `Component.Stop` return exactly the error value that
capability returns. -/
theorem routing_stop_capability (c : Component) :
    (c.provider.stop = none → c.Stop = none)
    ∧ (∀ res, c.provider.stop = some res → c.Stop = res) := by
  constructor
  · intro h
    simp [Component.Stop, h]
  · intro res h
    cases res <;> simp [Component.Stop, h]

theorem routing_stop_capability_witness :
    ((Component.mk providerPlain).Stop = none)
    ∧ ((Component.mk providerFailing).Stop = some (.errMsg "stop failed")) :=
  ⟨(routing_stop_capability (Component.mk providerPlain)).1 rfl,
   (routing_stop_capability (Component.mk providerFailing)).2
     (some (.errMsg "stop failed")) rfl⟩

/-- C5: for every discriminator registered in
`dictSourceConfigurationMap`, decoding the encoding of its default
configuration yields that same default configuration. -/
theorem dict_config_roundtrip (k : String) (cfg : DictSourceConfigurationV)
    (h : dictSourceConfigurationMap k = some cfg) :
    decodeDictConfiguration (encodeDictConfiguration cfg) = some cfg := by
  unfold dictSourceConfigurationMap at h
  split_ifs at h
  all_goals
    injection h with h
    subst h
    rfl

theorem dict_config_roundtrip_witness :
    decodeDictConfiguration (encodeDictConfiguration DefaultHttpDictSourceConfiguration)
      = some DefaultHttpDictSourceConfiguration :=
  dict_config_roundtrip "http" DefaultHttpDictSourceConfiguration (by decide)

/-- C6: the HTTP dict source's `Get` issues `http.Get` on the key; a
network failure is returned as that error with no stream, and any
received response is a success whose stream is the response body,
whatever the status code. -/
theorem http_get_behavior (w : World) (key : String) :
    (∀ e r, w.httpGet key = (r, some e) →
      DictSourceV.Get .http w key = .returns none (some e))
    ∧ (∀ resp, w.httpGet key = (some resp, none) →
      DictSourceV.Get .http w key = .returns (some resp.body) none) := by
  constructor
  · intro e r h
    simp [DictSourceV.Get, h]
  · intro resp h
    simp [DictSourceV.Get, h]

theorem http_get_behavior_witness :
    DictSourceV.Get .http worldAllFail "http://dicts/a"
        = .returns none (some (.netError "connection refused"))
    ∧ DictSourceV.Get .http worldServing "http://dicts/a"
        = .returns (some "<html>not found</html>") none :=
  ⟨(http_get_behavior worldAllFail "http://dicts/a").1
     (.netError "connection refused") none rfl,
   (http_get_behavior worldServing "http://dicts/a").2
     { statusCode := 404, body := "<html>not found</html>" } rfl⟩

/-- C7: the filesystem dict source's `Get` returns the `os.Open`
result verbatim: any OS error (not-found included) is propagated
unchanged with no stream, and an existing readable file yields a
stream equal to the file's bytes with a nil error. -/
theorem file_get_behavior (w : World) (key : String) :
    (∀ p, w.osOpen key = p →
      DictSourceV.Get .file w key = .returns p.1 p.2)
    ∧ (w.osOpen key = (none, some .notFound) →
      DictSourceV.Get .file w key = .returns none (some .notFound))
    ∧ (∀ bytes, w.osOpen key = (some bytes, none) →
      DictSourceV.Get .file w key = .returns (some bytes) none) := by
  refine ⟨?_, ?_, ?_⟩
  · intro p h
    simp [DictSourceV.Get, h]
  · intro h
    simp [DictSourceV.Get, h]
  · intro bytes h
    simp [DictSourceV.Get, h]

theorem file_get_behavior_witness :
    DictSourceV.Get .file worldAllFail "nonexistent/path"
        = .returns none (some .notFound)
    ∧ DictSourceV.Get .file worldServing "/etc/dict.csv"
        = .returns (some "a,b,c") none :=
  ⟨(file_get_behavior worldAllFail "nonexistent/path").2.1 (by decide),
   (file_get_behavior worldServing "/etc/dict.csv").2.2 "a,b,c" (by decide)⟩

/-- C8: the S3 dict source's `Get` delegates to the gateway's
`GetObject` on the configured S3 reference and the key: the gateway's
error is returned unchanged with no stream, and on a nil gateway error
the gateway's stream is returned with a nil error. -/
theorem s3_get_behavior (config : S3DictSourceConfiguration)
    (c : S3Component) (w : World) (key : String) :
    (∀ e s, c.GetObject config.S3Config key = (s, some e) →
      (DictSourceV.s3 config c).Get w key = .returns none (some e))
    ∧ (∀ s, c.GetObject config.S3Config key = (s, none) →
      (DictSourceV.s3 config c).Get w key = .returns s none) := by
  constructor
  · intro e s h
    simp [DictSourceV.Get, h]
  · intro s h
    simp [DictSourceV.Get, h]

theorem s3_get_behavior_witness :
    (DictSourceV.s3 { S3Config := "main" } s3GatewayMissing).Get worldAllFail "obj"
        = .returns none (some .notFound)
    ∧ (DictSourceV.s3 { S3Config := "main" } s3GatewayConst).Get worldAllFail "obj"
        = .returns (some "object-bytes") none :=
  ⟨(s3_get_behavior { S3Config := "main" } s3GatewayMissing worldAllFail "obj").1
     .notFound none rfl,
   (s3_get_behavior { S3Config := "main" } s3GatewayConst worldAllFail "obj").2
     (some "object-bytes") rfl⟩

/-- C9: under the documented contracts of the underlying calls
(`os.Open` and `GetObject` return a nil handle exactly on a non-nil
error; `http.Get` never returns both a nil response and a nil error),
each backend's `Get` returns a nil stream exactly when it returns a
non-nil error, and never panics. -/
theorem get_nil_stream_iff_error (w : World)
    (config : S3DictSourceConfiguration) (c : S3Component) (key : String)
    (hfile : (w.osOpen key).1.isNone = (w.osOpen key).2.isSome)
    (hhttp : (w.httpGet key).1 = none → (w.httpGet key).2 ≠ none)
    (hs3 : (c.GetObject config.S3Config key).1.isNone
        = (c.GetObject config.S3Config key).2.isSome) :
    exclusiveResult (DictSourceV.Get .file w key)
    ∧ exclusiveResult (DictSourceV.Get .http w key)
    ∧ exclusiveResult ((DictSourceV.s3 config c).Get w key) := by
  refine ⟨?_, ?_, ?_⟩
  · simp [DictSourceV.Get, exclusiveResult]
    rw [hfile]
  · rcases h : w.httpGet key with ⟨r, e⟩
    cases e with
    | some err => simp [DictSourceV.Get, h, exclusiveResult]
    | none =>
      cases r with
      | some resp => simp [DictSourceV.Get, h, exclusiveResult]
      | none =>
        have h1 : (w.httpGet key).1 = none := by rw [h]
        have h2 : (w.httpGet key).2 = none := by rw [h]
        exact absurd h2 (hhttp h1)
  · rw [show (c.GetObject config.S3Config key)
        = ((c.GetObject config.S3Config key).1, (c.GetObject config.S3Config key).2) from rfl] at hs3
    rcases h : c.GetObject config.S3Config key with ⟨r, e⟩
    rw [h] at hs3
    cases e with
    | some err => simp [DictSourceV.Get, h, exclusiveResult]
    | none =>
      cases r with
      | some b => simp [DictSourceV.Get, h, exclusiveResult]
      | none => simp at hs3

theorem get_nil_stream_iff_error_witness :
    exclusiveResult (DictSourceV.Get .file worldServing "/etc/dict.csv")
    ∧ exclusiveResult (DictSourceV.Get .http worldServing "/etc/dict.csv")
    ∧ exclusiveResult
        ((DictSourceV.s3 { S3Config := "main" } s3GatewayConst).Get worldServing "/etc/dict.csv") :=
  get_nil_stream_iff_error worldServing { S3Config := "main" } s3GatewayConst
    "/etc/dict.csv" (by decide) (by decide) (by decide)

/-- C10: `HttpDictSourceConfiguration.New` never returns an error and
discards the configuration: two configurations differing only in
`BaseURL` construct sources whose `Get` agrees on every world and
every key. -/
theorem http_config_noninterference (cfg1 cfg2 : HttpDictSourceConfiguration)
    (c : S3Component) :
    cfg1.New c = NewOutcome.returns (some .http) none
    ∧ (∀ s1 s2, cfg1.New c = NewOutcome.returns (some s1) none →
        cfg2.New c = NewOutcome.returns (some s2) none →
        ∀ w key, s1.Get w key = s2.Get w key) := by
  refine ⟨rfl, ?_⟩
  intro s1 s2 h1 h2 w key
  have e1 : some DictSourceV.http = some s1 := by
    have hh : NewOutcome.returns (some DictSourceV.http) none
        = NewOutcome.returns (some s1) none := h1
    injection hh with hstream herr
  have e2 : some DictSourceV.http = some s2 := by
    have hh : NewOutcome.returns (some DictSourceV.http) none
        = NewOutcome.returns (some s2) none := h2
    injection hh with hstream herr
  injection e1 with e1'
  injection e2 with e2'
  rw [← e1', ← e2']

theorem http_config_noninterference_witness :
    DictSourceV.Get .http worldServing "http://k"
      = DictSourceV.Get .http worldServing "http://k" :=
  (http_config_noninterference { BaseURL := "http://a" } { BaseURL := "http://b" }
      s3GatewayConst).2 .http .http rfl rfl worldServing "http://k"

end Akvorado
